import Mathlib

/-!
Verification of the two Streamlit scripts of this repository:
`meal.py` (the meal-plan generator) and `reply.py` (the HR e-mail responder).

The scripts are shallowly embedded: Python values produced by `json.loads` /
`response.json()` become the `Json` type below; dictionary access, `.get`,
subscripting, iteration and truthiness are modelled with the exceptions Python
raises; every Streamlit call that shows something to the user becomes an
`Effect`, and one run of a script becomes the list of effects it emits
together with (for code outside any `try`) the uncaught exception it may
raise.  The outcome of the single HTTP call is an explicit parameter, as is
the behaviour of `json.loads` on the payload text and of the remote model.
-/

namespace ReplyHr

/-- A Python value as produced by `json.loads` / `response.json()`:
`None`, booleans, numbers (floats are out of scope for this repository's
claims, so numbers are integers), strings, lists and string-keyed dicts. -/
inductive Json where
  | null
  | bool (b : Bool)
  | num (n : Int)
  | str (s : String)
  | arr (elems : List Json)
  | obj (fields : List (String × Json))

/-- First-match lookup in a dict's field list (Python dict keys are unique,
so first-match agrees with dict lookup). -/
def lookupField : List (String × Json) → String → Option Json
  | [], _ => none
  | (k, v) :: rest, key => if k = key then some v else lookupField rest key

/-- Python truthiness (`bool(x)`): `None`, `False`, `0`, `""`, `[]` and
an empty dict are falsy, everything else is truthy. -/
def Json.truthy : Json → Bool
  | .null => false
  | .bool b => b
  | .num n => n ≠ 0
  | .str s => !s.isEmpty
  | .arr xs => !xs.isEmpty
  | .obj fs => !fs.isEmpty

/-- Python subscripting `j[key]` with a string key: on a dict it returns the
value or raises `KeyError`; on anything else it raises `TypeError`. -/
def pySub (j : Json) (key : String) : Except String Json :=
  match j with
  | .obj fs =>
    match lookupField fs key with
    | some v => .ok v
    | none => .error ("KeyError: " ++ key)
  | _ => .error ("TypeError: value is not subscriptable with string key " ++ key)

/-- Python subscripting `j[0]`: first element of a list (or first character
of a string); `IndexError` when empty, `KeyError` on a dict without the key
`0` (our dicts are string-keyed), `TypeError` otherwise. -/
def pyIdx0 (j : Json) : Except String Json :=
  match j with
  | .arr (x :: _) => .ok x
  | .arr [] => .error "IndexError: list index out of range"
  | .str s =>
    match s.data with
    | c :: _ => .ok (.str (String.singleton c))
    | [] => .error "IndexError: string index out of range"
  | .obj _ => .error "KeyError: 0"
  | _ => .error "TypeError: value is not subscriptable"

/-- Python `j.get(key)` (default `None`): only dicts have `.get`; anything
else raises `AttributeError`. -/
def pyGet (j : Json) (key : String) : Except String Json :=
  match j with
  | .obj fs => .ok ((lookupField fs key).getD .null)
  | _ => .error ("AttributeError: value has no attribute get for key " ++ key)

/-- Python `j.get(key, dflt)`. -/
def pyGetD (j : Json) (key : String) (dflt : Json) : Except String Json :=
  match j with
  | .obj fs => .ok ((lookupField fs key).getD dflt)
  | _ => .error ("AttributeError: value has no attribute get for key " ++ key)

/-- Python iteration `for x in j`: a list yields its elements, a string its
characters, a dict its keys; anything else raises `TypeError`. -/
def pyIter (j : Json) : Except String (List Json) :=
  match j with
  | .arr xs => .ok xs
  | .str s => .ok (s.data.map fun c => .str (String.singleton c))
  | .obj fs => .ok (fs.map fun p => .str p.1)
  | _ => .error "TypeError: value is not iterable"

mutual

/-- Python `repr(x)` for `Json` values (as used by `str()` on containers). -/
def pyRepr : Json → String
  | .null => "None"
  | .bool b => if b then "True" else "False"
  | .num n => toString n
  | .str s => "'" ++ s ++ "'"
  | .arr xs => "[" ++ pyReprList xs ++ "]"
  | .obj fs => "\x7b" ++ pyReprFields fs ++ "\x7d"

/-- Comma-separated `repr`s of a list's elements. -/
def pyReprList : List Json → String
  | [] => ""
  | [x] => pyRepr x
  | x :: y :: rest => pyRepr x ++ ", " ++ pyReprList (y :: rest)

/-- Comma-separated `key: value` `repr`s of a dict's fields. -/
def pyReprFields : List (String × Json) → String
  | [] => ""
  | [(k, v)] => "'" ++ k ++ "': " ++ pyRepr v
  | (k, v) :: f :: rest => "'" ++ k ++ "': " ++ pyRepr v ++ ", " ++ pyReprFields (f :: rest)

end

/-- Python `str(x)` as used inside the scripts' f-strings: a string is
itself, everything else is shown through `repr`-like formatting. -/
def pyStr : Json → String
  | .str s => s
  | j => pyRepr j

/-- One user-visible or outward effect of a script run: each Streamlit
display call of the two scripts, plus the outgoing HTTP generation call. -/
inductive Effect where
  | warning (msg : String)
  | info (msg : String)
  | success (msg : String)
  | error (msg : String)
  | write (msg : String)
  | code (s : String)
  | jsonDump (j : Json)
  | header (s : String)
  | subheader (s : String)
  | markdown (s : String)
  | tabs (labels : List String)
  | checkbox (label : String) (key : String)
  | apiCall (prompt : String)
  | textArea (label : String) (value : String)
  | downloadButton (fileName : String)

/-- The prompt built by `generate_meal_plan` in `meal.py` (the f-string at
lines 21-33), interpolating preferences, goals and the meal count. -/
def mealPrompt (preferences goals : String) (num_meals_per_day : Int) : String :=
  "\n    Create a detailed 7-day weekly meal plan, including breakfast, lunch, and dinner (if "
    ++ toString num_meals_per_day
    ++ " is 3). Adjust meals based on the specified number of meals per day.\n    For each meal, include a recipe name, a list of ingredients, and cooking instructions.\n    Finally, provide a consolidated shopping list for the entire week's meal plan.\n\n    Dietary Preferences: "
    ++ preferences
    ++ "\n    Goals: "
    ++ goals
    ++ "\n    Number of meals per day: "
    ++ toString num_meals_per_day
    ++ "\n\n    The output MUST be in JSON format, adhering strictly to the following structure.\n    Ensure all ingredients mentioned in recipes are included in the shopping_list.\n    Provide realistic, diverse, and well-balanced meals.\n    "

/-- What the single `requests.post` call of `meal.py` comes back with.
`requestException` covers network failures and the `raise_for_status` HTTP
errors; `bodyDecodeError` is `response.json()` raising (with requests ≥ 2.27
that exception is a `RequestException` subclass, so it reaches the same
handler); `ok` carries the decoded envelope and `response.text`;
`otherException` is any other exception escaping the call. -/
inductive ApiOutcome where
  | requestException (msg : String)
  | bodyDecodeError (msg : String)
  | ok (envelope : Json) (rawText : String)
  | otherException (msg : String)

/-- Outcome of evaluating the envelope-shape condition of `meal.py` lines
101-102 and, when it holds, the subsequent extraction of the payload text at
line 104: the condition may raise (`raised`), be false (`failed`), or pass
and deliver the `text` value (`passed`). -/
inductive EnvCheck where
  | raised (msg : String)
  | failed
  | passed (text : Json)

/-- The short-circuit conjunction of `meal.py` lines 101-102 followed by the
subscript chain of line 104.  The source re-subscripts the same pure prefix
expressions in later conjuncts (`result['candidates'][0]` …); those
recomputations return the values already obtained, which are reused here. -/
def envelopeStep (result : Json) : EnvCheck :=
  if !result.truthy then .failed
  else
    match pyGet result "candidates" with
    | .error e => .raised e
    | .ok cands =>
      if !cands.truthy then .failed
      else
        match pySub result "candidates" with
        | .error e => .raised e
        | .ok cands2 =>
          match pyIdx0 cands2 with
          | .error e => .raised e
          | .ok cand0 =>
            match pyGet cand0 "content" with
            | .error e => .raised e
            | .ok content =>
              if !content.truthy then .failed
              else
                match pySub cand0 "content" with
                | .error e => .raised e
                | .ok content2 =>
                  match pyGet content2 "parts" with
                  | .error e => .raised e
                  | .ok parts =>
                    if !parts.truthy then .failed
                    else
                      match pySub content2 "parts" with
                      | .error e => .raised e
                      | .ok parts2 =>
                        match pyIdx0 parts2 with
                        | .error e => .raised e
                        | .ok part0 =>
                          match pyGet part0 "text" with
                          | .error e => .raised e
                          | .ok textv =>
                            if !textv.truthy then .failed
                            else
                              match pySub part0 "text" with
                              | .error e => .raised e
                              | .ok t => .passed t

/-- Processing of a decoded envelope inside the `try` of
`generate_meal_plan` (`meal.py` lines 100-122): shape check, extraction of
the payload text, `json.loads` on it, and the three `except` clauses.
`loads` is the `json.loads` collaborator (`.error` = `JSONDecodeError` with
its message); a non-string payload makes `json.loads` raise `TypeError`,
which the final `except Exception` clause catches. -/
def processEnvelope (envelope : Json) (rawText : String)
    (loads : String → Except String Json) : List Effect × Option Json :=
  match envelopeStep envelope with
  | .raised e => ([.error ("An unexpected error occurred: " ++ e)], none)
  | .failed =>
    ([.error "Error: Unexpected response format from Gemini API.", .jsonDump envelope], none)
  | .passed t =>
    match t with
    | .str s =>
      match loads s with
      | .ok parsed => ([], some parsed)
      | .error e =>
        ([.error ("Error parsing JSON response from Gemini API: " ++ e),
          .write "Raw API response content (might be malformed JSON):",
          .code rawText], none)
    | _ =>
      ([.error "An unexpected error occurred: TypeError: the JSON object must be str, bytes or bytearray"],
       none)

/-- `generate_meal_plan` of `meal.py` (lines 9-122): builds the prompt,
makes the API call (the `apiCall` effect), and handles the outcome; every
failure is caught by one of the three `except` clauses and yields `none`. -/
def generate_meal_plan (preferences goals : String) (num_meals_per_day : Int)
    (outcome : ApiOutcome) (loads : String → Except String Json) :
    List Effect × Option Json :=
  let callEff := Effect.apiCall (mealPrompt preferences goals num_meals_per_day)
  match outcome with
  | .requestException e => ([callEff, .error ("Error connecting to Gemini API: " ++ e)], none)
  | .bodyDecodeError e => ([callEff, .error ("Error connecting to Gemini API: " ++ e)], none)
  | .otherException e => ([callEff, .error ("An unexpected error occurred: " ++ e)], none)
  | .ok envelope rawText =>
    let step := processEnvelope envelope rawText loads
    (callEff :: step.1, step.2)

/-- The ingredient loop of `meal.py` lines 179-180: one `st.write` per
ingredient (the f-string accepts any value). -/
def renderIngredients (items : List Json) : List Effect :=
  items.map fun ing => .write ("- " ++ pyStr ing)

/-- Rendering of one meal (`meal.py` lines 176-183).  Runs outside any
`try`, so a raised exception aborts the script run: the result is the
effects emitted before the raise together with the exception, if any. -/
def renderMeal (meal : Json) : List Effect × Option String :=
  match pySub meal "type" with
  | .error e => ([], some e)
  | .ok t =>
    match pySub meal "recipe_name" with
    | .error e => ([], some e)
    | .ok rn =>
      let head := [Effect.markdown ("**" ++ pyStr t ++ ":** " ++ pyStr rn),
                   Effect.markdown "**Ingredients:**"]
      match pySub meal "ingredients" with
      | .error e => (head, some e)
      | .ok ings =>
        match pyIter ings with
        | .error e => (head, some e)
        | .ok items =>
          let mid := head ++ renderIngredients items ++ [Effect.markdown "**Instructions:**"]
          match pySub meal "instructions" with
          | .error e => (mid, some e)
          | .ok instr => (mid ++ [Effect.markdown (pyStr instr), Effect.markdown "---"], none)

/-- The meal loop of `meal.py` line 176: meals in order, stopping at the
first uncaught exception. -/
def renderMeals : List Json → List Effect × Option String
  | [] => ([], none)
  | m :: rest =>
    match renderMeal m with
    | (es, some e) => (es, some e)
    | (es, none) =>
      let tail := renderMeals rest
      (es ++ tail.1, tail.2)

/-- Rendering of one day tab (`meal.py` lines 173-185): the subheader from
`day_data['day']`, then either the meal list or the "nothing planned"
placeholder when `day_data['meals']` is falsy. -/
def renderDay (day_data : Json) : List Effect × Option String :=
  match pySub day_data "day" with
  | .error e => ([], some e)
  | .ok d =>
    let sh := Effect.subheader ("___" ++ pyStr d ++ "___")
    match pySub day_data "meals" with
    | .error e => ([sh], some e)
    | .ok meals =>
      if meals.truthy then
        match pyIter meals with
        | .error e => ([sh], some e)
        | .ok items =>
          let inner := renderMeals items
          (sh :: inner.1, inner.2)
      else ([sh, Effect.write "No meals planned for this day."], none)

/-- The day loop of `meal.py` line 172. -/
def renderDays : List Json → List Effect × Option String
  | [] => ([], none)
  | d :: rest =>
    match renderDay d with
    | (es, some e) => (es, some e)
    | (es, none) =>
      let tail := renderDays rest
      (es ++ tail.1, tail.2)

/-- The tab-title comprehension of `meal.py` line 169:
`[day_data['day'] for day_data in meal_plan_data['weekly_meal_plan']]`. -/
def tabTitles : List Json → Except String (List Json)
  | [] => .ok []
  | d :: rest =>
    match pySub d "day" with
    | .error e => .error e
    | .ok t =>
      match tabTitles rest with
      | .error e => .error e
      | .ok ts => .ok (t :: ts)

/-- The checkbox loop of `meal.py` lines 192-193: one checkbox per shopping
list item, keyed `item_<idx>` (the 3-column layout does not change what is
rendered). -/
def renderChecklist (items : List Json) (idx : Nat) : List Effect :=
  match items with
  | [] => []
  | item :: rest =>
    Effect.checkbox (pyStr item) ("item_" ++ toString idx) :: renderChecklist rest (idx + 1)

/-- Shopping-list rendering (`meal.py` lines 188-195): the header, then
`meal_plan_data.get('shopping_list', [])`; a truthy list becomes checkboxes,
a falsy one the "nothing generated" placeholder. -/
def renderShoppingList (plan : Json) : List Effect × Option String :=
  match pyGetD plan "shopping_list" (.arr []) with
  | .error e => ([Effect.header "Shopping List 🛒"], some e)
  | .ok sl =>
    if sl.truthy then
      match pyIter sl with
      | .error e => ([Effect.header "Shopping List 🛒"], some e)
      | .ok items => (Effect.header "Shopping List 🛒" :: renderChecklist items 0, none)
    else ([Effect.header "Shopping List 🛒", Effect.write "No shopping list generated."], none)

/-- Rendering of a truthy parsed meal plan (`meal.py` lines 168-195):
header, tab titles, `st.tabs` (which raises on an empty label list), the day
loop (line 172 re-subscripts `meal_plan_data['weekly_meal_plan']`, a pure
recomputation of the value already obtained), then the shopping list. -/
def renderMealPlan (plan : Json) : List Effect × Option String :=
  match pySub plan "weekly_meal_plan" with
  | .error e => ([Effect.header "Weekly Meal Plan 🗓️"], some e)
  | .ok wk =>
    match pyIter wk with
    | .error e => ([Effect.header "Weekly Meal Plan 🗓️"], some e)
    | .ok days =>
      match tabTitles days with
      | .error e => ([Effect.header "Weekly Meal Plan 🗓️"], some e)
      | .ok titles =>
        if titles.isEmpty then
          ([Effect.header "Weekly Meal Plan 🗓️"],
           some "StreamlitAPIException: st.tabs requires at least one tab label")
        else
          let dayPart := renderDays days
          match dayPart.2 with
          | some e =>
            (Effect.header "Weekly Meal Plan 🗓️" :: Effect.tabs (titles.map pyStr) :: dayPart.1,
             some e)
          | none =>
            let slPart := renderShoppingList plan
            (Effect.header "Weekly Meal Plan 🗓️" :: Effect.tabs (titles.map pyStr)
               :: dayPart.1 ++ slPart.1,
             slPart.2)

/-- The `generate_button` handler of `meal.py` (lines 153-195): an empty
preferences string (Python `not dietary_preferences`) short-circuits with a
warning and no API call; otherwise `generate_meal_plan` runs and a truthy
result is rendered. -/
def mealHandler (generate_button : Bool) (dietary_preferences health_goals : String)
    (num_meals : Int) (outcome : ApiOutcome) (loads : String → Except String Json) :
    List Effect × Option String :=
  if generate_button then
    if dietary_preferences = "" then
      ([.warning "Please enter your dietary preferences."], none)
    else
      let gen := generate_meal_plan dietary_preferences health_goals num_meals outcome loads
      let effs := Effect.info "Generating your personalized meal plan... This might take a moment!"
        :: gen.1
      match gen.2 with
      | none => (effs, none)
      | some plan =>
        if plan.truthy then
          let r := renderMealPlan plan
          (effs ++ Effect.success "Meal Plan Generated Successfully!" :: r.1, r.2)
        else (effs, none)
  else ([], none)

/-- Python `str.strip()` with no arguments (as used in `reply.py`): drops
leading and trailing whitespace characters. -/
def pyStrip (s : String) : String :=
  ⟨((s.data.dropWhile Char.isWhitespace).reverse.dropWhile Char.isWhitespace).reverse⟩

/-- The argument tuple `st.cache_data` keys `generate_email` on in
`reply.py`: (applicant_text, tone, format_type, name, role, company). -/
abbrev EmailArgs := String × String × String × String × String × String

/-- Lookup in the `st.cache_data` memo for `generate_email`. -/
def cacheLookup : List (EmailArgs × String) → EmailArgs → Option String
  | [], _ => none
  | (k, v) :: rest, key => if k = key then some v else cacheLookup rest key

/-- The prompt f-string of `generate_email` in `reply.py` (lines 14-23). -/
def emailPrompt (applicant_text tone format_type name role company : String) : String :=
  "\n    You are an HR manager. Write an email response to a job applicant.\n    Applicant Name: "
    ++ name
    ++ "\n    Role Applied For: "
    ++ role
    ++ "\n    Company: "
    ++ company
    ++ "\n    Email Format: "
    ++ format_type
    ++ "\n    Tone: "
    ++ tone
    ++ "\n    Applicant Message: "
    ++ applicant_text
    ++ "\n    Please generate a professional email response.\n    "

/-- `generate_email` of `reply.py` (lines 12-25) together with its
`@st.cache_data` memoisation: a hit returns the cached text without calling
the model; a miss calls the model (`api` is `model.generate_content(…).text`)
on the built prompt, strips the result, and caches it.  Returns (result,
updated cache, whether the model API was called). -/
def generate_email (cache : List (EmailArgs × String))
    (applicant_text tone format_type name role company : String)
    (api : String → String) : String × List (EmailArgs × String) × Bool :=
  let key : EmailArgs := (applicant_text, tone, format_type, name, role, company)
  match cacheLookup cache key with
  | some v => (v, cache, false)
  | none =>
    let reply := pyStrip (api (emailPrompt applicant_text tone format_type name role company))
    (reply, (key, reply) :: cache, true)

/-- One run of the `reply.py` script body (lines 56-87): session-state
draft `email0` (initially `""`), the submit handler with its whitespace-
stripping emptiness check, the display and PDF download of a truthy draft,
and the regenerate button, which overwrites the draft with the static
placeholder and calls nothing.  Returns (new draft, new cache, effects). -/
def replyRun (email0 : String) (cache : List (EmailArgs × String)) (submitted : Bool)
    (applicant_text tone format_type name role company : String)
    (regen_clicked : Bool) (api : String → String) :
    String × List (EmailArgs × String) × List Effect :=
  let afterSubmit :=
    if submitted then
      if pyStrip applicant_text = "" then
        (email0, cache, [Effect.error "Please paste the applicant's message."])
      else
        let gen := generate_email cache applicant_text tone format_type name role company api
        (gen.1, gen.2.1,
         if gen.2.2 then
           [Effect.apiCall (emailPrompt applicant_text tone format_type name role company)]
         else [])
    else (email0, cache, ([] : List Effect))
  let email1 := afterSubmit.1
  if email1 = "" then afterSubmit
  else
    let shown := afterSubmit.2.2
      ++ [Effect.textArea "Email Response" email1, Effect.downloadButton "HR_Email_Response.pdf"]
    if regen_clicked then ("Thank you for your application.", afterSubmit.2.1, shown)
    else (email1, afterSubmit.2.1, shown)

/-- Whether a value is a JSON string. -/
def isStrJson : Json → Bool
  | .str _ => true
  | _ => false

/-- Whether a value is a JSON array of strings. -/
def isStrArr : Json → Bool
  | .arr xs => xs.all isStrJson
  | _ => false

/-- A meal object conforming to the `response_schema` of `meal.py`
(lines 47-59): `type`, `recipe_name`, `instructions` strings and
`ingredients` an array of strings. -/
def wellFormedMeal (m : Json) : Bool :=
  match m with
  | .obj fs =>
    (match lookupField fs "type" with
     | some (.str _) => true
     | _ => false) &&
    (match lookupField fs "recipe_name" with
     | some (.str _) => true
     | _ => false) &&
    (match lookupField fs "ingredients" with
     | some v => isStrArr v
     | none => false) &&
    (match lookupField fs "instructions" with
     | some (.str _) => true
     | _ => false)
  | _ => false

/-- A day object conforming to the schema (lines 42-62): a string `day`
and a `meals` array of well-formed meals. -/
def wellFormedDay (d : Json) : Bool :=
  match d with
  | .obj fs =>
    (match lookupField fs "day" with
     | some (.str _) => true
     | _ => false) &&
    (match lookupField fs "meals" with
     | some (.arr ms) => ms.all wellFormedMeal
     | _ => false)
  | _ => false

/-- A parsed response conforming to the requested schema (lines 36-71):
a `weekly_meal_plan` array of well-formed days and a `shopping_list` array
of strings. -/
def wellFormedPlan (p : Json) : Bool :=
  match p with
  | .obj fs =>
    (match lookupField fs "weekly_meal_plan" with
     | some (.arr ds) => ds.all wellFormedDay
     | _ => false) &&
    (match lookupField fs "shopping_list" with
     | some v => isStrArr v
     | none => false)
  | _ => false

/-- The day entries of a parsed response ([] when the field is absent or
not an array). -/
def planDays (p : Json) : List Json :=
  match p with
  | .obj fs =>
    match lookupField fs "weekly_meal_plan" with
    | some (.arr ds) => ds
    | _ => []
  | _ => []

/-- The shopping-list entries of a parsed response ([] when the field is
absent or not an array). -/
def shoppingItems (p : Json) : List Json :=
  match p with
  | .obj fs =>
    match lookupField fs "shopping_list" with
    | some (.arr ss) => ss
    | _ => []
  | _ => []

/-- How many `st.subheader` calls a list of effects contains: the planner
renders exactly one per day section. -/
def subheaderCount (effs : List Effect) : Nat :=
  effs.countP fun e =>
    match e with
    | .subheader _ => true
    | _ => false

/-- The labels of the `st.checkbox` calls in a list of effects, in order:
the rendered shopping list. -/
def checkboxLabels (effs : List Effect) : List String :=
  effs.filterMap fun e =>
    match e with
    | .checkbox l _ => some l
    | _ => none

/-- How many outgoing generation-API calls a list of effects contains. -/
def countApiCalls (effs : List Effect) : Nat :=
  effs.countP fun e =>
    match e with
    | .apiCall _ => true
    | _ => false

/-- A well-shaped Gemini envelope whose payload text is `"plan-json"`:
`candidates[0].content.parts[0].text`. -/
def goodEnvelope : Json :=
  .obj [("candidates",
    .arr [.obj [("content",
      .obj [("parts",
        .arr [.obj [("text", .str "plan-json")]])])]])]

/-- A schema-conforming 7-day response: six days with empty meal arrays and
one full day, plus a shopping list. -/
def sevenDayPlan : Json :=
  .obj [("weekly_meal_plan",
          .arr [.obj [("day", .str "Monday"), ("meals", .arr [])],
                .obj [("day", .str "Tuesday"), ("meals", .arr [])],
                .obj [("day", .str "Wednesday"), ("meals", .arr [])],
                .obj [("day", .str "Thursday"), ("meals", .arr [])],
                .obj [("day", .str "Friday"), ("meals", .arr [])],
                .obj [("day", .str "Saturday"), ("meals", .arr [])],
                .obj [("day", .str "Sunday"),
                      ("meals", .arr [.obj [("type", .str "Breakfast"),
                                            ("recipe_name", .str "Oatmeal"),
                                            ("ingredients", .arr [.str "Oats", .str "Water"]),
                                            ("instructions", .str "Boil and stir.")]])]]),
        ("shopping_list", .arr [.str "Oats", .str "Water"])]

/-- A response whose shopping list repeats an ingredient. -/
def planDupEggs : Json :=
  .obj [("weekly_meal_plan",
          .arr [.obj [("day", .str "Monday"), ("meals", .arr [])]]),
        ("shopping_list", .arr [.str "Eggs", .str "Eggs"])]

/-- A response with a day entry that lacks the `meals` key. -/
def planMissingMeals : Json :=
  .obj [("weekly_meal_plan", .arr [.obj [("day", .str "Monday")]]),
        ("shopping_list", .arr [.str "Eggs"])]

/-- `hay` contains `needle` as a substring. -/
def containsSub (hay needle : String) : Prop :=
  ∃ a b, hay = a ++ needle ++ b

end ReplyHr

namespace ReplyHr

theorem subheaderCount_append (a b : List Effect) :
    subheaderCount (a ++ b) = subheaderCount a + subheaderCount b := by
  simp [subheaderCount, List.countP_append]

theorem checkboxLabels_append (a b : List Effect) :
    checkboxLabels (a ++ b) = checkboxLabels a ++ checkboxLabels b := by
  simp [checkboxLabels, List.filterMap_append]

theorem countApiCalls_append (a b : List Effect) :
    countApiCalls (a ++ b) = countApiCalls a + countApiCalls b := by
  simp [countApiCalls, List.countP_append]

theorem renderIngredients_counts (items : List Json) :
    subheaderCount (renderIngredients items) = 0 ∧
    checkboxLabels (renderIngredients items) = [] := by
  constructor
  · simp [renderIngredients, subheaderCount, List.countP_eq_zero]
  · simp [checkboxLabels, renderIngredients, List.filterMap_map]

theorem opt_str_inv : ∀ {o : Option Json},
    (match o with | some (.str _) => true | _ => false) = true →
    ∃ s, o = some (Json.str s)
  | some (.str s), _ => ⟨s, rfl⟩
  | none, h => Bool.noConfusion h
  | some .null, h => Bool.noConfusion h
  | some (.bool _), h => Bool.noConfusion h
  | some (.num _), h => Bool.noConfusion h
  | some (.arr _), h => Bool.noConfusion h
  | some (.obj _), h => Bool.noConfusion h

theorem opt_some_inv {p : Json → Bool} : ∀ {o : Option Json},
    (match o with | some v => p v | none => false) = true →
    ∃ v, o = some v ∧ p v = true
  | some v, h => ⟨v, rfl, h⟩
  | none, h => Bool.noConfusion h

theorem isStrArr_inv : ∀ {v : Json}, isStrArr v = true →
    ∃ xs, v = Json.arr xs ∧ xs.all isStrJson = true
  | .arr xs, h => ⟨xs, rfl, h⟩
  | .null, h => Bool.noConfusion h
  | .bool _, h => Bool.noConfusion h
  | .num _, h => Bool.noConfusion h
  | .str _, h => Bool.noConfusion h
  | .obj _, h => Bool.noConfusion h

theorem opt_arr_all_inv {p : Json → Bool} : ∀ {o : Option Json},
    (match o with | some (.arr ms) => ms.all p | _ => false) = true →
    ∃ ms, o = some (Json.arr ms) ∧ ms.all p = true
  | some (.arr ms), h => ⟨ms, rfl, h⟩
  | none, h => Bool.noConfusion h
  | some .null, h => Bool.noConfusion h
  | some (.bool _), h => Bool.noConfusion h
  | some (.num _), h => Bool.noConfusion h
  | some (.str _), h => Bool.noConfusion h
  | some (.obj _), h => Bool.noConfusion h

theorem renderMeal_wf (m : Json) (h : wellFormedMeal m = true) :
    (renderMeal m).2 = none ∧ subheaderCount (renderMeal m).1 = 0 ∧
    checkboxLabels (renderMeal m).1 = [] := by
  cases m with
  | obj fs =>
    simp only [wellFormedMeal, Bool.and_eq_true] at h
    obtain ⟨⟨⟨h1, h2⟩, h3⟩, h4⟩ := h
    obtain ⟨s1, heq1⟩ := opt_str_inv h1
    obtain ⟨s2, heq2⟩ := opt_str_inv h2
    obtain ⟨v, heq3, hv⟩ := opt_some_inv h3
    obtain ⟨xs, rfl, hall⟩ := isStrArr_inv hv
    obtain ⟨s4, heq4⟩ := opt_str_inv h4
    simp [renderMeal, pySub, heq1, heq2, heq3, heq4, pyIter,
      subheaderCount_append, checkboxLabels_append,
      (renderIngredients_counts xs).1, (renderIngredients_counts xs).2,
      subheaderCount, checkboxLabels]
    constructor <;>
      · intro a ha
        simp [renderIngredients, List.mem_map] at ha
        obtain ⟨i, hi, rfl⟩ := ha
        rfl
  | null => exact Bool.noConfusion h
  | bool b => exact Bool.noConfusion h
  | num n => exact Bool.noConfusion h
  | str s => exact Bool.noConfusion h
  | arr xs => exact Bool.noConfusion h

theorem renderMeals_wf (ms : List Json) (h : ms.all wellFormedMeal = true) :
    (renderMeals ms).2 = none ∧ subheaderCount (renderMeals ms).1 = 0 ∧
    checkboxLabels (renderMeals ms).1 = [] := by
  induction ms with
  | nil => simp [renderMeals, subheaderCount, checkboxLabels]
  | cons m rest ih =>
    simp only [List.all_cons, Bool.and_eq_true] at h
    obtain ⟨hm, hrest⟩ := h
    obtain ⟨e1, e2, e3⟩ := renderMeal_wf m hm
    obtain ⟨f1, f2, f3⟩ := ih hrest
    simp only [renderMeals]
    rcases hm2 : renderMeal m with ⟨es, o⟩
    cases o with
    | some e => rw [hm2] at e1; simp at e1
    | none =>
      simp only
      rcases hr : renderMeals rest with ⟨es2, o2⟩
      rw [hm2] at e2 e3
      rw [hr] at f1 f2 f3
      simp_all [subheaderCount_append, checkboxLabels_append]

theorem renderDay_wf (d : Json) (h : wellFormedDay d = true) :
    (renderDay d).2 = none ∧ subheaderCount (renderDay d).1 = 1 ∧
    checkboxLabels (renderDay d).1 = [] := by
  cases d with
  | obj fs =>
    simp only [wellFormedDay, Bool.and_eq_true] at h
    obtain ⟨h1, h2⟩ := h
    obtain ⟨s1, heq1⟩ := opt_str_inv h1
    obtain ⟨ms, heq2, hall⟩ := opt_arr_all_inv h2
    cases ms with
    | nil => simp [renderDay, pySub, heq1, heq2, Json.truthy, subheaderCount, checkboxLabels]
    | cons m rest =>
      obtain ⟨e1, e2, e3⟩ := renderMeals_wf (m :: rest) hall
      rcases hr : renderMeals (m :: rest) with ⟨es, o⟩
      rw [hr] at e1 e2 e3
      subst e1
      simp [renderDay, pySub, heq1, heq2, Json.truthy, pyIter, hr,
        subheaderCount, checkboxLabels] at e2 e3 ⊢
      exact ⟨e2, e3⟩
  | null => exact Bool.noConfusion h
  | bool b => exact Bool.noConfusion h
  | num n => exact Bool.noConfusion h
  | str s => exact Bool.noConfusion h
  | arr xs => exact Bool.noConfusion h

theorem renderDays_wf (ds : List Json) (h : ds.all wellFormedDay = true) :
    (renderDays ds).2 = none ∧ subheaderCount (renderDays ds).1 = ds.length ∧
    checkboxLabels (renderDays ds).1 = [] := by
  induction ds with
  | nil => simp [renderDays, subheaderCount, checkboxLabels]
  | cons d rest ih =>
    simp only [List.all_cons, Bool.and_eq_true] at h
    obtain ⟨hd, hrest⟩ := h
    obtain ⟨e1, e2, e3⟩ := renderDay_wf d hd
    obtain ⟨f1, f2, f3⟩ := ih hrest
    simp only [renderDays]
    rcases hm2 : renderDay d with ⟨es, o⟩
    cases o with
    | some e => rw [hm2] at e1; simp at e1
    | none =>
      simp only
      rcases hr : renderDays rest with ⟨es2, o2⟩
      rw [hm2] at e2 e3
      rw [hr] at f1 f2 f3
      simp_all [subheaderCount_append, checkboxLabels_append, List.length_cons]
      omega

theorem tabTitles_wf (ds : List Json) (h : ds.all wellFormedDay = true) :
    ∃ ts, tabTitles ds = .ok ts ∧ ts.length = ds.length := by
  induction ds with
  | nil => exact ⟨[], rfl, rfl⟩
  | cons d rest ih =>
    simp only [List.all_cons, Bool.and_eq_true] at h
    obtain ⟨hd, hrest⟩ := h
    obtain ⟨ts, hts, hlen⟩ := ih hrest
    cases d with
    | obj fs =>
      simp only [wellFormedDay, Bool.and_eq_true] at hd
      obtain ⟨s1, heq1⟩ := opt_str_inv hd.1
      exact ⟨Json.str s1 :: ts, by simp [tabTitles, pySub, heq1, hts], by simp [hlen]⟩
    | null => exact Bool.noConfusion hd
    | bool b => exact Bool.noConfusion hd
    | num n => exact Bool.noConfusion hd
    | str s => exact Bool.noConfusion hd
    | arr xs => exact Bool.noConfusion hd

theorem renderChecklist_labels (items : List Json) :
    ∀ idx, checkboxLabels (renderChecklist items idx) = items.map pyStr := by
  induction items with
  | nil => intro idx; simp [renderChecklist, checkboxLabels]
  | cons item rest ih =>
    intro idx
    simp [renderChecklist, checkboxLabels] at ih ⊢
    exact ih (idx + 1)

theorem renderChecklist_subheaders (items : List Json) :
    ∀ idx, subheaderCount (renderChecklist items idx) = 0 := by
  induction items with
  | nil => intro idx; simp [renderChecklist, subheaderCount]
  | cons item rest ih =>
    intro idx
    simp [renderChecklist, subheaderCount] at ih ⊢
    exact ih (idx + 1)

theorem renderShoppingList_wf (p : Json) (h : wellFormedPlan p = true) :
    (renderShoppingList p).2 = none ∧
    subheaderCount (renderShoppingList p).1 = 0 ∧
    checkboxLabels (renderShoppingList p).1 = (shoppingItems p).map pyStr := by
  cases p with
  | obj fs =>
    simp only [wellFormedPlan, Bool.and_eq_true] at h
    obtain ⟨h1, h2⟩ := h
    obtain ⟨v, heq2, hv⟩ := opt_some_inv h2
    obtain ⟨ss, rfl, hall⟩ := isStrArr_inv hv
    cases ss with
    | nil =>
      simp [renderShoppingList, pyGetD, heq2, Json.truthy, shoppingItems,
        subheaderCount, checkboxLabels]
    | cons a rest =>
      simp [renderShoppingList, pyGetD, heq2, Json.truthy, pyIter, shoppingItems,
        subheaderCount, checkboxLabels, renderChecklist_labels (a :: rest) 0,
        renderChecklist_subheaders (a :: rest) 0]
      constructor
      · have := renderChecklist_subheaders (a :: rest) 0
        simpa [subheaderCount] using this
      · have := renderChecklist_labels (a :: rest) 0
        simpa [checkboxLabels] using this
  | null => exact Bool.noConfusion h
  | bool b => exact Bool.noConfusion h
  | num n => exact Bool.noConfusion h
  | str s => exact Bool.noConfusion h
  | arr xs => exact Bool.noConfusion h

theorem lookupField_ne_nil {fs : List (String × Json)} {k : String} {v : Json}
    (h : lookupField fs k = some v) : fs ≠ [] := by
  cases fs with
  | nil => simp [lookupField] at h
  | cons a rest => simp

theorem wellFormedPlan_truthy (p : Json) (h : wellFormedPlan p = true) :
    p.truthy = true := by
  cases p with
  | obj fs =>
    simp only [wellFormedPlan, Bool.and_eq_true] at h
    obtain ⟨v, heq2, hv⟩ := opt_some_inv h.2
    have := lookupField_ne_nil heq2
    simp [Json.truthy, this]
  | null => exact Bool.noConfusion h
  | bool b => exact Bool.noConfusion h
  | num n => exact Bool.noConfusion h
  | str s => exact Bool.noConfusion h
  | arr xs => exact Bool.noConfusion h

theorem renderMealPlan_wf (p : Json) (h : wellFormedPlan p = true)
    (hne : planDays p ≠ []) :
    (renderMealPlan p).2 = none ∧
    subheaderCount (renderMealPlan p).1 = (planDays p).length ∧
    checkboxLabels (renderMealPlan p).1 = (shoppingItems p).map pyStr := by
  cases p with
  | obj fs =>
    have hcopy := h
    simp only [wellFormedPlan, Bool.and_eq_true] at h
    obtain ⟨h1, h2⟩ := h
    obtain ⟨ds, heq1, hall⟩ := opt_arr_all_inv h1
    have hdsne : ds ≠ [] := by
      simpa [planDays, heq1] using hne
    obtain ⟨ts, hts, hlen⟩ := tabTitles_wf ds hall
    have htsne : ts.isEmpty = false := by
      cases ts with
      | nil =>
        cases ds with
        | nil => exact absurd rfl hdsne
        | cons d r => simp at hlen
      | cons a r => simp
    obtain ⟨e1, e2, e3⟩ := renderDays_wf ds hall
    rcases hrd : renderDays ds with ⟨des, o⟩
    rw [hrd] at e1 e2 e3
    subst e1
    obtain ⟨f1, f2, f3⟩ := renderShoppingList_wf (.obj fs) hcopy
    rcases hrs : renderShoppingList (.obj fs) with ⟨ses, o2⟩
    rw [hrs] at f1 f2 f3
    subst f1
    have hplan : renderMealPlan (Json.obj fs)
        = (Effect.header "Weekly Meal Plan 🗓️" :: Effect.tabs (List.map pyStr ts)
            :: (des ++ ses), none) := by
      simp [renderMealPlan, pySub, heq1, pyIter, hts, htsne, hrd, hrs]
    have e2' : subheaderCount des = ds.length := e2
    have f2' : subheaderCount ses = 0 := f2
    have e3' : checkboxLabels des = [] := e3
    have f3' : checkboxLabels ses = List.map pyStr (shoppingItems (Json.obj fs)) := f3
    rw [hplan]
    refine ⟨rfl, ?_, ?_⟩
    · have hconsub : subheaderCount (Effect.header "Weekly Meal Plan 🗓️"
          :: Effect.tabs (List.map pyStr ts) :: (des ++ ses)) = subheaderCount (des ++ ses) := by
        simp [subheaderCount, List.countP_cons]
      rw [hconsub, subheaderCount_append, e2', f2']
      simp [planDays, heq1]
    · have hconcb : checkboxLabels (Effect.header "Weekly Meal Plan 🗓️"
          :: Effect.tabs (List.map pyStr ts) :: (des ++ ses)) = checkboxLabels (des ++ ses) := by
        simp [checkboxLabels, List.filterMap_cons]
      rw [hconcb, checkboxLabels_append, e3', f3']
      simp
  | null => exact Bool.noConfusion h
  | bool b => exact Bool.noConfusion h
  | num n => exact Bool.noConfusion h
  | str s => exact Bool.noConfusion h
  | arr xs => exact Bool.noConfusion h

end ReplyHr

namespace ReplyHr

theorem processEnvelope_spec (env : Json) (raw : String)
    (loads : String → Except String Json) :
    countApiCalls (processEnvelope env raw loads).1 = 0 ∧
    ((processEnvelope env raw loads).2 = none →
      ∃ m, Effect.error m ∈ (processEnvelope env raw loads).1) := by
  unfold processEnvelope
  cases h : envelopeStep env with
  | raised e => simp [countApiCalls]
  | failed => simp [countApiCalls]
  | passed t =>
    cases t with
    | str s =>
      cases hl : loads s with
      | ok j => simp [hl, countApiCalls]
      | error e => simp [hl, countApiCalls]
    | null => simp [countApiCalls]
    | bool b => simp [countApiCalls]
    | num n => simp [countApiCalls]
    | arr xs => simp [countApiCalls]
    | obj fs => simp [countApiCalls]

theorem generate_meal_plan_spec (prefs goals : String) (n : Int)
    (outcome : ApiOutcome) (loads : String → Except String Json) :
    countApiCalls (generate_meal_plan prefs goals n outcome loads).1 = 1 ∧
    ((generate_meal_plan prefs goals n outcome loads).2 = none →
      ∃ m, Effect.error m ∈ (generate_meal_plan prefs goals n outcome loads).1) := by
  cases outcome with
  | requestException e => simp [generate_meal_plan, countApiCalls]
  | bodyDecodeError e => simp [generate_meal_plan, countApiCalls]
  | otherException e => simp [generate_meal_plan, countApiCalls]
  | ok env raw =>
    obtain ⟨p1, p2⟩ := processEnvelope_spec env raw loads
    rcases hp : processEnvelope env raw loads with ⟨es, r⟩
    rw [hp] at p1 p2
    simp only at p1 p2
    constructor
    · simp [generate_meal_plan, hp, countApiCalls, List.countP_cons]
      simpa [countApiCalls] using p1
    · intro hr
      simp only [generate_meal_plan, hp] at hr ⊢
      obtain ⟨m, hm⟩ := p2 hr
      exact ⟨m, List.mem_cons_of_mem _ hm⟩

theorem replyRun_empty_message (email0 : String) (cache : List (EmailArgs × String))
    (atext tone ftype name role company : String) (regen : Bool) (api : String → String)
    (ht : pyStrip atext = "") :
    countApiCalls (replyRun email0 cache true atext tone ftype name role company regen api).2.2 = 0 ∧
    Effect.error "Please paste the applicant's message."
      ∈ (replyRun email0 cache true atext tone ftype name role company regen api).2.2 := by
  simp only [replyRun, ht, if_true, if_pos rfl]
  by_cases he : email0 = "" <;> by_cases hr : regen <;>
    simp [he, hr, countApiCalls]

/-- C1: with the required free-text field empty (the planner's preferences
exactly empty, the responder's applicant message empty after stripping), the
run shows an inline validation message and makes no generation-API call. -/
theorem claim1_empty_required_field_no_api_call :
    (∀ (goals : String) (n : Int) (outcome : ApiOutcome)
       (loads : String → Except String Json),
      mealHandler true "" goals n outcome loads
        = ([.warning "Please enter your dietary preferences."], none)) ∧
    (∀ (email0 : String) (cache : List (EmailArgs × String))
       (atext tone ftype name role company : String) (regen : Bool) (api : String → String),
      pyStrip atext = "" →
      countApiCalls
          (replyRun email0 cache true atext tone ftype name role company regen api).2.2 = 0 ∧
      Effect.error "Please paste the applicant's message."
        ∈ (replyRun email0 cache true atext tone ftype name role company regen api).2.2) := by
  constructor
  · intro goals n outcome loads
    simp [mealHandler]
  · intro email0 cache atext tone ftype name role company regen api ht
    exact replyRun_empty_message email0 cache atext tone ftype name role company regen api ht

/-- Witness for C1 at concrete inputs. -/
theorem claim1_witness :
    mealHandler true "" "Weight Loss" 3 (.requestException "down") (fun _ => .error "e")
      = ([.warning "Please enter your dietary preferences."], none) ∧
    countApiCalls (replyRun "" [] true "   " "Formal" "Acknowledgement" "John Doe"
        "Software Engineer" "Acme Corp" false (fun _ => "text")).2.2 = 0 ∧
    Effect.error "Please paste the applicant's message."
      ∈ (replyRun "" [] true "   " "Formal" "Acknowledgement" "John Doe"
          "Software Engineer" "Acme Corp" false (fun _ => "text")).2.2 := by
  refine ⟨claim1_empty_required_field_no_api_call.1 _ _ _ _, ?_, ?_⟩
  · exact (claim1_empty_required_field_no_api_call.2 _ _ _ _ _ _ _ _ _ _ (by decide)).1
  · exact (claim1_empty_required_field_no_api_call.2 _ _ _ _ _ _ _ _ _ _ (by decide)).2

/-- C2: when the envelope shape check passes and `json.loads` fails on the
payload text, `generate_meal_plan` reports the parse error, writes the
diagnostic line, shows the raw response text, and returns `None`. -/
theorem claim2_malformed_payload_reported
    (prefs goals : String) (n : Int) (env : Json) (raw s e : String)
    (loads : String → Except String Json)
    (hstep : envelopeStep env = .passed (.str s)) (hload : loads s = .error e) :
    generate_meal_plan prefs goals n (.ok env raw) loads
      = ([.apiCall (mealPrompt prefs goals n),
          .error ("Error parsing JSON response from Gemini API: " ++ e),
          .write "Raw API response content (might be malformed JSON):",
          .code raw], none) := by
  simp [generate_meal_plan, processEnvelope, hstep, hload]

/-- Witness for C2 at concrete inputs. -/
theorem claim2_witness :
    generate_meal_plan "Vegan" "Weight Loss" 3 (.ok goodEnvelope "RAW TEXT")
        (fun _ => .error "Expecting value: line 1 column 1 (char 0)")
      = ([.apiCall (mealPrompt "Vegan" "Weight Loss" 3),
          .error ("Error parsing JSON response from Gemini API: "
            ++ "Expecting value: line 1 column 1 (char 0)"),
          .write "Raw API response content (might be malformed JSON):",
          .code "RAW TEXT"], none) :=
  claim2_malformed_payload_reported "Vegan" "Weight Loss" 3 goodEnvelope "RAW TEXT"
    "plan-json" "Expecting value: line 1 column 1 (char 0)" _ rfl rfl

/-- C4: clicking regenerate while a draft is shown resets the stored draft
to the static placeholder, changes no cache entry and calls no API. -/
theorem claim4_regenerate_resets_to_placeholder
    (email0 : String) (cache : List (EmailArgs × String))
    (atext tone ftype name role company : String) (api : String → String)
    (h : email0 ≠ "") :
    (replyRun email0 cache false atext tone ftype name role company true api).1
      = "Thank you for your application." ∧
    countApiCalls
        (replyRun email0 cache false atext tone ftype name role company true api).2.2 = 0 ∧
    (replyRun email0 cache false atext tone ftype name role company true api).2.1 = cache := by
  simp [replyRun, h, countApiCalls]

/-- Witness for C4 at concrete inputs. -/
theorem claim4_witness :
    (replyRun "Dear John, thank you." [] false "msg" "Formal" "Rejection" "John"
        "SE" "Acme" true (fun _ => "x")).1 = "Thank you for your application." ∧
    countApiCalls (replyRun "Dear John, thank you." [] false "msg" "Formal" "Rejection" "John"
        "SE" "Acme" true (fun _ => "x")).2.2 = 0 ∧
    (replyRun "Dear John, thank you." [] false "msg" "Formal" "Rejection" "John"
        "SE" "Acme" true (fun _ => "x")).2.1 = [] :=
  claim4_regenerate_resets_to_placeholder "Dear John, thank you." [] "msg" "Formal"
    "Rejection" "John" "SE" "Acme" (fun _ => "x") (by decide)

/-- C9: a second `generate_email` call with identical arguments returns the
first call's result from the cache, without a second model-API call. -/
theorem claim9_identical_call_served_from_cache (cache : List (EmailArgs × String))
    (atext tone ftype name role company : String) (api : String → String) :
    generate_email (generate_email cache atext tone ftype name role company api).2.1
        atext tone ftype name role company api
      = ((generate_email cache atext tone ftype name role company api).1,
         (generate_email cache atext tone ftype name role company api).2.1, false) := by
  unfold generate_email
  cases h : cacheLookup cache (atext, tone, ftype, name, role, company) with
  | some v => simp [h]
  | none => simp [h, cacheLookup]

/-- C6: every outcome of the generation call makes exactly one API call (no
retry), and every failure is caught: a `None` result always comes with a
user-visible error message. -/
theorem claim6_every_failure_caught_no_retry (prefs goals : String) (n : Int)
    (outcome : ApiOutcome) (loads : String → Except String Json) :
    countApiCalls (generate_meal_plan prefs goals n outcome loads).1 = 1 ∧
    ((generate_meal_plan prefs goals n outcome loads).2 = none →
      ∃ m, Effect.error m ∈ (generate_meal_plan prefs goals n outcome loads).1) :=
  generate_meal_plan_spec prefs goals n outcome loads

/-- Witness for C6 at a concrete failing outcome. -/
theorem claim6_witness :
    countApiCalls (generate_meal_plan "Vegan" "Weight Loss" 2
        (.requestException "connection refused") (fun _ => .error "e")).1 = 1 ∧
    ((generate_meal_plan "Vegan" "Weight Loss" 2
        (.requestException "connection refused") (fun _ => .error "e")).2 = none →
      ∃ m, Effect.error m ∈ (generate_meal_plan "Vegan" "Weight Loss" 2
        (.requestException "connection refused") (fun _ => .error "e")).1) :=
  claim6_every_failure_caught_no_retry "Vegan" "Weight Loss" 2
    (.requestException "connection refused") (fun _ => .error "e")

theorem mealPrompt_interpolates (p g : String) (n : Int) :
    containsSub (mealPrompt p g n) p ∧ containsSub (mealPrompt p g n) g ∧
    containsSub (mealPrompt p g n) (toString n) := by
  unfold mealPrompt containsSub
  refine ⟨⟨"\n    Create a detailed 7-day weekly meal plan, including breakfast, lunch, and dinner (if "
      ++ toString n
      ++ " is 3). Adjust meals based on the specified number of meals per day.\n    For each meal, include a recipe name, a list of ingredients, and cooking instructions.\n    Finally, provide a consolidated shopping list for the entire week's meal plan.\n\n    Dietary Preferences: ",
      "\n    Goals: " ++ g ++ "\n    Number of meals per day: " ++ toString n
      ++ "\n\n    The output MUST be in JSON format, adhering strictly to the following structure.\n    Ensure all ingredients mentioned in recipes are included in the shopping_list.\n    Provide realistic, diverse, and well-balanced meals.\n    ",
      by simp [String.append_assoc]⟩,
    ⟨"\n    Create a detailed 7-day weekly meal plan, including breakfast, lunch, and dinner (if "
      ++ toString n
      ++ " is 3). Adjust meals based on the specified number of meals per day.\n    For each meal, include a recipe name, a list of ingredients, and cooking instructions.\n    Finally, provide a consolidated shopping list for the entire week's meal plan.\n\n    Dietary Preferences: "
      ++ p ++ "\n    Goals: ",
      "\n    Number of meals per day: " ++ toString n
      ++ "\n\n    The output MUST be in JSON format, adhering strictly to the following structure.\n    Ensure all ingredients mentioned in recipes are included in the shopping_list.\n    Provide realistic, diverse, and well-balanced meals.\n    ",
      by simp [String.append_assoc]⟩,
    "\n    Create a detailed 7-day weekly meal plan, including breakfast, lunch, and dinner (if ",
    " is 3). Adjust meals based on the specified number of meals per day.\n    For each meal, include a recipe name, a list of ingredients, and cooking instructions.\n    Finally, provide a consolidated shopping list for the entire week's meal plan.\n\n    Dietary Preferences: "
      ++ p ++ "\n    Goals: " ++ g ++ "\n    Number of meals per day: " ++ toString n
      ++ "\n\n    The output MUST be in JSON format, adhering strictly to the following structure.\n    Ensure all ingredients mentioned in recipes are included in the shopping_list.\n    Provide realistic, diverse, and well-balanced meals.\n    ",
    by simp [String.append_assoc]⟩

/-- C7: the prompt interpolates the three user inputs; in particular at
preferences "Vegan", goal "Weight Loss", meals 2, it contains the substrings
"Vegan", "Weight Loss" and "2". -/
theorem claim7_prompt_interpolates_inputs :
    (containsSub (mealPrompt "Vegan" "Weight Loss" 2) "Vegan" ∧
     containsSub (mealPrompt "Vegan" "Weight Loss" 2) "Weight Loss" ∧
     containsSub (mealPrompt "Vegan" "Weight Loss" 2) "2") ∧
    (∀ (p g : String) (n : Int),
      containsSub (mealPrompt p g n) p ∧ containsSub (mealPrompt p g n) g ∧
      containsSub (mealPrompt p g n) (toString n)) := by
  constructor
  · have h := mealPrompt_interpolates "Vegan" "Weight Loss" 2
    have h2 : toString (2 : Int) = "2" := rfl
    rw [h2] at h
    exact h
  · exact mealPrompt_interpolates

/-- C3: with non-empty preferences and a schema-conforming response of
exactly 7 day entries delivered by the API, the handler renders exactly 7
day sections (subheaders) and raises nothing. -/
theorem claim3_seven_day_sections (prefs goals : String) (n : Int) (raw : String)
    (plan : Json) (hp : prefs ≠ "") (hw : wellFormedPlan plan = true)
    (h7 : (planDays plan).length = 7) :
    subheaderCount (mealHandler true prefs goals n (.ok goodEnvelope raw)
      (fun _ => .ok plan)).1 = 7 ∧
    (mealHandler true prefs goals n (.ok goodEnvelope raw) (fun _ => .ok plan)).2 = none := by
  have hne : planDays plan ≠ [] := by
    intro hnil
    rw [hnil] at h7
    simp at h7
  obtain ⟨r1, r2, r3⟩ := renderMealPlan_wf plan hw hne
  have htr := wellFormedPlan_truthy plan hw
  rcases hr : renderMealPlan plan with ⟨res, o⟩
  rw [hr] at r1 r2
  simp only at r1 r2
  subst r1
  have hstep : envelopeStep goodEnvelope = EnvCheck.passed (.str "plan-json") := rfl
  have hgen : generate_meal_plan prefs goals n (.ok goodEnvelope raw) (fun _ => .ok plan)
      = ([Effect.apiCall (mealPrompt prefs goals n)], some plan) := by
    simp [generate_meal_plan, processEnvelope, hstep]
  have hh : mealHandler true prefs goals n (.ok goodEnvelope raw) (fun _ => .ok plan)
      = ([Effect.info "Generating your personalized meal plan... This might take a moment!",
          Effect.apiCall (mealPrompt prefs goals n),
          Effect.success "Meal Plan Generated Successfully!"] ++ res, none) := by
    simp [mealHandler, hp, hgen, htr, hr]
  rw [hh]
  refine ⟨?_, rfl⟩
  simp only [subheaderCount_append]
  have hzero : subheaderCount
      [Effect.info "Generating your personalized meal plan... This might take a moment!",
       Effect.apiCall (mealPrompt prefs goals n),
       Effect.success "Meal Plan Generated Successfully!"] = 0 := rfl
  rw [hzero, r2, h7]

theorem claim3_witness :
    subheaderCount (mealHandler true "Vegetarian, no dairy, low carb" "Weight Loss" 3
      (.ok goodEnvelope "raw") (fun _ => .ok sevenDayPlan)).1 = 7 ∧
    (mealHandler true "Vegetarian, no dairy, low carb" "Weight Loss" 3
      (.ok goodEnvelope "raw") (fun _ => .ok sevenDayPlan)).2 = none :=
  claim3_seven_day_sections "Vegetarian, no dairy, low carb" "Weight Loss" 3 "raw"
    sevenDayPlan (by decide) rfl rfl

/-- C5 counterexample: the rendered shopping list is NOT deduplicated — a
response with a repeated ingredient renders two identical checkboxes. -/
theorem claim5_counterexample_duplicate_checkboxes :
    checkboxLabels (renderMealPlan planDupEggs).1 = ["Eggs", "Eggs"] ∧
    ¬ (checkboxLabels (renderMealPlan planDupEggs).1).Nodup := by
  have h : checkboxLabels (renderMealPlan planDupEggs).1 = ["Eggs", "Eggs"] := rfl
  refine ⟨h, ?_⟩
  rw [h]
  decide

/-- C5 amended: the shopping list is rendered verbatim, one checkbox per
response entry in order, duplicates included (deduplication is only asked of
the model in the prompt, never enforced). -/
theorem claim5_shopping_list_rendered_verbatim (plan : Json)
    (hw : wellFormedPlan plan = true) (hne : planDays plan ≠ []) :
    checkboxLabels (renderMealPlan plan).1 = (shoppingItems plan).map pyStr ∧
    (renderMealPlan plan).2 = none := by
  obtain ⟨r1, r2, r3⟩ := renderMealPlan_wf plan hw hne
  exact ⟨r3, r1⟩

/-- Witness for C5's amended statement at the duplicate-eggs plan. -/
theorem claim5_witness :
    checkboxLabels (renderMealPlan planDupEggs).1 = (shoppingItems planDupEggs).map pyStr ∧
    (renderMealPlan planDupEggs).2 = none :=
  claim5_shopping_list_rendered_verbatim planDupEggs rfl
    (by
      intro hn
      have hlen : (planDays planDupEggs).length = 1 := rfl
      rw [hn] at hlen
      simp at hlen)

/-- C8 counterexample: a day entry with no `meals` key does not render the
"nothing planned" placeholder — the run aborts with an uncaught KeyError. -/
theorem claim8_counterexample_missing_meals_key :
    (renderMealPlan planMissingMeals).2 = some "KeyError: meals" ∧
    Effect.write "No meals planned for this day." ∉ (renderMealPlan planMissingMeals).1 := by
  have h : (renderMealPlan planMissingMeals).1
      = [.header "Weekly Meal Plan 🗓️", .tabs ["Monday"], .subheader "___Monday___"] := rfl
  refine ⟨rfl, ?_⟩
  rw [h]
  simp

/-- C8 amended: a day entry whose `meals` array is EMPTY renders the
"nothing planned" placeholder, and a missing or empty `shopping_list`
renders the "nothing generated" placeholder (a MISSING `meals` key instead
raises, see the counterexample). -/
theorem claim8_empty_arrays_render_placeholders :
    (∀ (fs : List (String × Json)) (label : String),
      lookupField fs "day" = some (.str label) →
      lookupField fs "meals" = some (.arr []) →
      renderDay (.obj fs)
        = ([.subheader ("___" ++ label ++ "___"),
            .write "No meals planned for this day."], none)) ∧
    (∀ fs : List (String × Json),
      lookupField fs "shopping_list" = none ∨
        lookupField fs "shopping_list" = some (.arr []) →
      renderShoppingList (.obj fs)
        = ([.header "Shopping List 🛒", .write "No shopping list generated."], none)) := by
  constructor
  · intro fs label hd hm
    simp [renderDay, pySub, hd, hm, Json.truthy, pyStr]
  · intro fs h
    rcases h with h | h <;> simp [renderShoppingList, pyGetD, h, Json.truthy]

/-- Witness for C8's amended statement at concrete inputs. -/
theorem claim8_witness :
    renderDay (.obj [("day", .str "Monday"), ("meals", .arr [])])
      = ([.subheader ("___" ++ "Monday" ++ "___"),
          .write "No meals planned for this day."], none) ∧
    renderShoppingList (.obj [("weekly_meal_plan", .arr [])])
      = ([.header "Shopping List 🛒", .write "No shopping list generated."], none) :=
  ⟨claim8_empty_arrays_render_placeholders.1 [("day", .str "Monday"), ("meals", .arr [])]
      "Monday" rfl rfl,
   claim8_empty_arrays_render_placeholders.2 [("weekly_meal_plan", .arr [])] (Or.inl rfl)⟩

theorem generate_meal_plan_calls (p g : String) (n : Int)
    (outcome : ApiOutcome) (loads : String → Except String Json) :
    ∃ t, (generate_meal_plan p g n outcome loads).1
      = Effect.apiCall (mealPrompt p g n) :: t := by
  cases outcome <;> exact ⟨_, rfl⟩

/-- C10: planner validation rejects only the exactly-empty preferences
string — a whitespace-only input passes and the API call happens — while
the responder strips whitespace first and rejects it with no API call. -/
theorem claim10_whitespace_only_passes_planner (prefs goals : String) (n : Int)
    (outcome : ApiOutcome) (loads : String → Except String Json)
    (email0 : String) (cache : List (EmailArgs × String))
    (atext tone ftype name role company : String) (regen : Bool) (api : String → String)
    (hws : pyStrip prefs = "") (hne : prefs ≠ "") (hws2 : pyStrip atext = "") :
    Effect.apiCall (mealPrompt prefs goals n) ∈ (mealHandler true prefs goals n outcome loads).1 ∧
    countApiCalls
      (replyRun email0 cache true atext tone ftype name role company regen api).2.2 = 0 := by
  constructor
  · obtain ⟨t, hgen⟩ := generate_meal_plan_calls prefs goals n outcome loads
    rcases hg : generate_meal_plan prefs goals n outcome loads with ⟨es, d⟩
    rw [hg] at hgen
    simp only at hgen
    subst hgen
    cases d with
    | none => simp [mealHandler, hne, hg]
    | some plan =>
      by_cases htp : plan.truthy <;> simp [mealHandler, hne, hg, htp]
  · exact (replyRun_empty_message email0 cache atext tone ftype name role company regen api hws2).1

/-- Witness for C10 at whitespace-only inputs. -/
theorem claim10_witness :
    Effect.apiCall (mealPrompt "   " "Weight Loss" 3)
      ∈ (mealHandler true "   " "Weight Loss" 3 (.requestException "down")
          (fun _ => .error "e")).1 ∧
    countApiCalls (replyRun "" [] true " " "Formal" "Acknowledgement" "John Doe"
        "Software Engineer" "Acme Corp" false (fun _ => "text")).2.2 = 0 :=
  claim10_whitespace_only_passes_planner "   " "Weight Loss" 3 (.requestException "down")
    (fun _ => .error "e") "" [] " " "Formal" "Acknowledgement" "John Doe"
    "Software Engineer" "Acme Corp" false (fun _ => "text")
    (by decide) (by decide) (by decide)

end ReplyHr
